import Mathlib

/-!
Verification of the rmw_libp2p request/response, listener, guard-condition
and wait-set core, as a shallow embedding of the C++ sources
(rmw_libp2p_cpp/src and its impl headers) in Lean 4.

Bytes are modelled as natural numbers; every read normalises with `% 256`,
and machine-integer wraparound is made explicit with `% 2^64` etc.
The WireCodec itself lives on the Rust side of the repository and is not
among the C++ sources; its byte layout is modelled from the specification
(fixed-width little-endian integers, twos complement for signed values).
-/

namespace RmwLibp2p

/-- Little-endian encoding of a natural number into `w` bytes,
modelled from the spec: the WireCodec writes fixed-width integers with
no padding (the Rust rs_libp2p_cdr_buffer_write_* functions are not
under the C++ sources). -/
def natLE : Nat → Nat → List Nat
  | 0, _ => []
  | w + 1, n => (n % 256) :: natLE w (n / 256)

/-- Little-endian value of a byte list; each byte is normalised mod 256. -/
def leVal (bs : List Nat) : Nat :=
  bs.foldr (fun b acc => b % 256 + 256 * acc) 0

/-- Cast of a byte (unsigned value) to a signed 8-bit integer, as in
the C++ static_cast from uint8_t to int8_t in rmw_send_request. -/
def castInt8 (b : Nat) : Int :=
  if b % 256 < 128 then (b % 256 : Int) else (b % 256 : Int) - 256

/-- Byte written for a signed 8-bit value: its twos complement pattern. -/
def int8Byte (v : Int) : Nat := (v % (2 ^ 8 : Int)).toNat

/-- Little-endian twos-complement encoding of a signed 64-bit integer,
modelled from the spec: the sequence number is written as a signed
64-bit fixed-width field (rs_libp2p_cdr_buffer_write_int64). -/
def int64LE (v : Int) : List Nat := natLE 8 ((v % (2 ^ 64 : Int)).toNat)

/-- Decoding of an unsigned 64-bit pattern as a signed 64-bit integer. -/
def toInt64 (n : Nat) : Int :=
  if n < 2 ^ 63 then (n : Int) else (n : Int) - 2 ^ 64

/-- Sequential read of `w` bytes from a buffer; fails past the end,
modelled from the spec: reading past the end of the buffer must fail
(BufferUnderrun) rather than return undefined data. -/
def readBytes (w : Nat) (bs : List Nat) : Option (List Nat × List Nat) :=
  if w ≤ bs.length then some (bs.take w, bs.drop w) else none

theorem natLE_length (w n : Nat) : (natLE w n).length = w := by
  induction w generalizing n with
  | zero => rfl
  | succ v ih => simp [natLE, ih]

theorem leVal_natLE (w n : Nat) : leVal (natLE w n) = n % 2 ^ (8 * w) := by
  induction w generalizing n with
  | zero => simp [natLE, leVal, Nat.mod_one]
  | succ v ih =>
    have h : 2 ^ (8 * (v + 1)) = 256 * 2 ^ (8 * v) := by
      rw [Nat.mul_succ, Nat.pow_add]
      ring
    rw [h]
    simp only [natLE, leVal, List.foldr_cons]
    have hv : (natLE v (n / 256)).foldr (fun b acc => b % 256 + 256 * acc) 0
        = (n / 256) % 2 ^ (8 * v) := ih (n / 256)
    rw [hv, Nat.mod_mod_of_dvd n (dvd_refl 256), ← Nat.mod_mul_right_div_self,
      ← Nat.mod_mod_of_dvd n (dvd_mul_right 256 (2 ^ (8 * v)))]
    exact Nat.mod_add_div _ _

theorem castInt8_byte (b : Nat) : int8Byte (castInt8 b) = b % 256 := by
  unfold castInt8 int8Byte
  split <;> omega

theorem leVal_int64LE (s : Int) (h1 : -(2 ^ 63) ≤ s) (h2 : s < 2 ^ 63) :
    toInt64 (leVal (int64LE s)) = s := by
  unfold int64LE
  rw [leVal_natLE]
  have h88 : (8 : Nat) * 8 = 64 := by norm_num
  rw [h88]
  unfold toInt64
  split <;> omega

/-! Listener (impl/listener.hpp): a per-endpoint FIFO queue of received
byte payloads, with an optional attached external mutex/condition pair.
The queue entries are the delivered byte payloads; the attached pair is
modelled as a boolean (attached or not), since the notification itself
is a real-time effect outside the shallow embedding. -/

/-- Message payload delivered by the transport: raw bytes. -/
abbrev Msg := List Nat

/-- Embedding of rmw_libp2p_cpp::Listener: the FIFO message queue plus
whether an external condition pair is currently attached. -/
structure Listener where
  queue : List Msg
  condAttached : Bool
  deriving DecidableEq, Repr

namespace Listener

/-- Embedding of Listener::on_publication: appends the delivered payload
to the tail of the queue (both branches of the C++ push the same data;
they differ only in whether the external condition is notified). -/
def on_publication (l : Listener) (m : Msg) : Listener :=
  { l with queue := l.queue ++ [m] }

/-- Embedding of Listener::attach_condition. -/
def attach_condition (l : Listener) : Listener :=
  { l with condAttached := true }

/-- Embedding of Listener::detach_condition. -/
def detach_condition (l : Listener) : Listener :=
  { l with condAttached := false }

/-- Embedding of Listener::has_data: the queue is non-empty. -/
def has_data (l : Listener) : Bool :=
  l.queue.length > 0

/-- Embedding of Listener::take_next_data: pop and return the front
entry, or report empty (false/none) leaving the queue unchanged. -/
def take_next_data (l : Listener) : Option Msg × Listener :=
  match l.queue with
  | [] => (none, l)
  | m :: rest => (some m, { l with queue := rest })

end Listener

/-! GuardCondition (impl/guard_condition.hpp). -/

/-- Embedding of GuardCondition: the triggered flag plus whether an
external condition pair is attached. -/
structure GuardCondition where
  has_triggered : Bool
  condAttached : Bool
  deriving DecidableEq, Repr

namespace GuardCondition

/-- Embedding of GuardCondition::trigger: sets the flag (in both the
attached and unattached branches of the C++). -/
def trigger (g : GuardCondition) : GuardCondition :=
  { g with has_triggered := true }

/-- Embedding of GuardCondition::hasTriggered: level-style peek, returns
the flag and leaves the state unchanged. -/
def hasTriggered (g : GuardCondition) : Bool × GuardCondition :=
  (g.has_triggered, g)

/-- Embedding of GuardCondition::getHasTriggered: atomic exchange with
false — returns the current flag and clears it. -/
def getHasTriggered (g : GuardCondition) : Bool × GuardCondition :=
  (g.has_triggered, { g with has_triggered := false })

end GuardCondition

/-! Wait set (rmw_wait.cpp). -/

/-- Return codes of the rmw layer used by the embedded functions. -/
inductive RmwRet where
  | ok
  | timeout
  | error
  | invalidArgument
  deriving DecidableEq, Repr

/-- Embedding of rmw_time_t: seconds and nanoseconds (both unsigned). -/
structure RmwTime where
  sec : Nat
  nsec : Nat
  deriving DecidableEq, Repr

/-- Embedding of rmw_libp2p_cpp::CustomSubscriptionInfo (the part used
by rmw_wait and rmw_take: the listener). -/
structure CustomSubscriptionInfo where
  listener : Listener
  deriving DecidableEq, Repr

/-- Embedding of rmw_libp2p_cpp::CustomWaitsetInfo: its condition mutex
and variable are real-time objects with no shallow state. -/
structure CustomWaitsetInfo where
  mk ::
  deriving DecidableEq, Repr

/-- Embedding of check_wait_set_for_data (rmw_wait.cpp): although it
receives the guard conditions, services and clients of the wait set, the
C++ body only loops over the subscriptions, returning true when some
non-null listener of the subscription has data; the other three arguments are
never read. -/
def check_wait_set_for_data
    (subscriptions : Option (List (Option CustomSubscriptionInfo)))
    (_guard_conditions : Option (List GuardCondition))
    (_services : Option (List Listener))
    (_clients : Option (List Listener)) : Bool :=
  match subscriptions with
  | some subs =>
    subs.any fun s =>
      match s with
      | some info => info.listener.has_data
      | none => false
  | none => false

/-- Test of the events guard of libp2p_c__rmw_wait: the C++ condition
(events && events->event_count) is true when the events pointer is
non-null with a nonzero count. -/
def eventsNonzero (events : Option Nat) : Bool :=
  match events with
  | some n => n ≠ 0
  | none => false

/-- Embedding of libp2p_c__rmw_wait (rmw_wait.cpp). Pointer handles
become Options (none = null). Blocking is modelled with subsAtWake,
the subscription states observed when a blocking wait returns: with no
timeout the condition wait returns only once the predicate holds, with a
positive timeout it returns the predicate value at the deadline, which
the code negates into the timeout flag. The function returns the rmw
return code together with the subscription array after the final
detach-and-clear loop (entries whose listener has no data are nulled).
The dead null checks on the addresses of the mutex of the waitset and
condition members are omitted. -/
def libp2p_c__rmw_wait
    (subscriptions : Option (List (Option CustomSubscriptionInfo)))
    (guard_conditions : Option (List GuardCondition))
    (services : Option (List Listener))
    (clients : Option (List Listener))
    (events : Option Nat)
    (wait_set : Option (Option CustomWaitsetInfo))
    (wait_timeout : Option RmwTime)
    (subsAtWake : Option (List (Option CustomSubscriptionInfo))) :
    RmwRet × Option (List (Option CustomSubscriptionInfo)) :=
  if eventsNonzero events then (.error, subscriptions)
  else
    match wait_set with
    | none => (.error, subscriptions)
    | some none => (.error, subscriptions)
    | some (some _) =>
      let attached := subscriptions.map fun subs =>
        subs.map fun s => s.map fun info =>
          { info with listener := info.listener.attach_condition }
      let has_data := check_wait_set_for_data attached guard_conditions services clients
      let blocked :=
        !has_data &&
          (match wait_timeout with
            | none => true
            | some t => t.sec > 0 || t.nsec > 0)
      let timedOut :=
        if has_data then false
        else
          match wait_timeout with
          | none => false
          | some t =>
            if t.sec > 0 || t.nsec > 0 then
              !check_wait_set_for_data subsAtWake guard_conditions services clients
            else true
      let finalSubs := if blocked then subsAtWake else attached
      let cleared := finalSubs.map fun subs =>
        subs.map fun s =>
          match s with
          | some info =>
            let det := { info with listener := info.listener.detach_condition }
            if det.listener.has_data then some det else none
          | none => none
      (if timedOut then .timeout else .ok, cleared)

/-! Request/response correlator (rmw_request.cpp, rmw_response.cpp,
rmw_take.cpp, impl/custom_service_info.hpp, impl/custom_client_info.hpp). -/

/-- Embedding of rmw_request_id_t: the 16 writer-guid bytes and the
signed 64-bit sequence number; equality is bytewise (memcmp in the map
comparator of custom_service_info.hpp). -/
structure RequestId where
  writer_guid : List Nat
  sequence_number : Int
  deriving DecidableEq, Repr

/-- Decoded delivered message: the fields every take-side function
extracts, in the order the C++ reads them from the CDR buffer. -/
structure DecodedMsg where
  timestamp : Nat
  guid : List Nat
  seq : Int
  payload : List Nat
  deriving DecidableEq, Repr

/-- Embedding of the take-side header decode shared verbatim by _take
(rmw_take.cpp), rmw_take_request (rmw_request.cpp) and rmw_take_response
(rmw_response.cpp): read an unsigned 64-bit seconds field and an
unsigned 32-bit microseconds field (timestamp = secs * 1000000000 +
usecs * 1000 in 64-bit unsigned arithmetic), then 16 signed 8-bit guid
bytes, then the signed 64-bit sequence number; the remaining bytes are
the payload handed to message deserialization. -/
def decodeHeader (bs : List Nat) : Option DecodedMsg :=
  match readBytes 8 bs with
  | none => none
  | some (sb, r1) =>
    match readBytes 4 r1 with
    | none => none
    | some (ub, r2) =>
      match readBytes 16 r2 with
      | none => none
      | some (gb, r3) =>
        match readBytes 8 r3 with
        | none => none
        | some (qb, r4) =>
          some
            { timestamp := (leVal sb * 1000000000 + leVal ub * 1000) % 2 ^ 64
              guid := gb.map fun b => int8Byte (castInt8 b)
              seq := toInt64 (leVal qb)
              payload := r4 }

/-- Rendering of a nibble as a lowercase hex character (the %02x format
of the sprintf in rmw_take_request). -/
def hexDigit (n : Nat) : Char :=
  if n < 10 then Char.ofNat (48 + n) else Char.ofNat (97 + (n - 10))

/-- Rendering of one byte as two lowercase hex characters. -/
def byteHex (b : Nat) : String :=
  String.mk [hexDigit (b % 256 / 16), hexDigit (b % 16)]

/-- Concatenated hex rendering of a byte list. -/
def bytesHex (bs : List Nat) : String :=
  bs.foldl (fun s b => s ++ byteHex b) ""

/-- Embedding of the uuid_str sprintf of rmw_take_request: the 16 guid
bytes rendered as lowercase hex grouped 4-2-2-2-6 with dashes. -/
def uuidStr (g : List Nat) : String :=
  bytesHex (g.take 4) ++ "-" ++ bytesHex ((g.drop 4).take 2) ++ "-" ++
    bytesHex ((g.drop 6).take 2) ++ "-" ++ bytesHex ((g.drop 8).take 2) ++ "-" ++
    bytesHex (g.drop 10)

/-- Embedding of a transport publisher handle
(rs_libp2p_custom_publisher_t). Modelled from the spec: the Rust
transport is not among the C++ sources; it exposes the publisher
16-byte identity (none when rs_libp2p_custom_publisher_get_gid returns
0) and a monotonically increasing per-publisher sequence counter. -/
structure PublisherInfo where
  topic : String
  gid : Option (List Nat)
  seqCounter : Int
  deriving DecidableEq, Repr

/-- Modelled from the spec: rs_libp2p_custom_publisher_new binds a fresh
publisher to the given topic; its transport-assigned identity is an
oracle argument. -/
def publisher_new (topic : String) (gid : Option (List Nat)) : PublisherInfo :=
  { topic := topic, gid := gid, seqCounter := 0 }

/-- Modelled from the spec: rs_libp2p_custom_publisher_get_sequence_number
reads the per-publisher sequence counter. -/
def get_sequence_number (p : PublisherInfo) : Int :=
  p.seqCounter

/-- Modelled from the spec: rs_libp2p_custom_publisher_publish returns
status 0 on success (the pubOk oracle decides transport success) and
advances the per-publisher sequence counter on a successful publication
(sequence numbers per publisher are monotonic). -/
def publisher_publish (p : PublisherInfo) (pubOk : Bool) : Nat × PublisherInfo :=
  if pubOk then (0, { p with seqCounter := p.seqCounter + 1 }) else (1, p)

/-- Embedding of the pending-request map of CustomServiceInfo
(std::map from rmw_request_id_t to the response publisher). -/
def ReqMap := RequestId → Option PublisherInfo

/-- Embedding of std::map::emplace: insert only when the key is absent. -/
def emplaceReq (m : ReqMap) (k : RequestId) (v : PublisherInfo) : ReqMap :=
  fun q => if (m k).isSome then m q else if q = k then some v else m q

/-- Embedding of std::map::erase of the entry found for a key. -/
def eraseReq (m : ReqMap) (k : RequestId) : ReqMap :=
  fun q => if q = k then none else m q

/-- Embedding of rmw_libp2p_cpp::CustomServiceInfo (the fields the
request/response path uses): service topic name, request listener, and
the pending-request map. -/
structure CustomServiceInfo where
  service_name : String
  listener : Listener
  requests : ReqMap

/-- Embedding of rmw_libp2p_cpp::CustomClientInfo (the fields the
request path uses): the private response listener and the shared
request-topic publisher. -/
structure CustomClientInfo where
  listener : Listener
  request_publisher : PublisherInfo
  deriving DecidableEq, Repr

/-- Result of an embedded take call: the rmw return code, the taken
flag, the decoded fields (none when nothing was taken). -/
structure TakeResult where
  ret : RmwRet
  taken : Bool
  decoded : Option DecodedMsg
  deriving DecidableEq, Repr

/-- Embedding of the header+payload encoding of rmw_send_request and
rmw_send_response: each of the 16 identity bytes cast to int8 and
written as one byte, then the signed 64-bit sequence number, then the
serialized payload bytes. -/
def encodeHeaderPayload (guid : List Nat) (seq : Int) (payload : List Nat) : List Nat :=
  (guid.map fun b => int8Byte (castInt8 b)) ++ int64LE seq ++ payload

/-- Result of rmw_send_request: return code, the sequence id written to
the out parameter (none when not written), the client state after the
call, and the publish calls made (bytes handed to the transport). -/
structure SendRequestResult where
  ret : RmwRet
  seqId : Option Int
  client : CustomClientInfo
  published : List (List Nat)
  deriving DecidableEq, Repr

/-- Embedding of rmw_send_request (rmw_request.cpp): fetch the request
publisher identity (error when the transport reports none), write the
16 identity bytes as int8, read the per-publisher sequence number and
write it as int64, serialize the request payload (serOk oracle), publish
(pubOk oracle); on publish success write the sequence number to the out
parameter and return OK. Null-pointer and implementation-identifier
guards on the C handles are outside the shallow state. -/
def rmw_send_request (client : CustomClientInfo) (payload : List Nat)
    (serOk pubOk : Bool) : SendRequestResult :=
  match client.request_publisher.gid with
  | none => { ret := .error, seqId := none, client := client, published := [] }
  | some g =>
    let seq_num := get_sequence_number client.request_publisher
    let bytes := encodeHeaderPayload g seq_num payload
    if serOk then
      let (status, pub2) := publisher_publish client.request_publisher pubOk
      if status = 0 then
        { ret := .ok, seqId := some seq_num,
          client := { client with request_publisher := pub2 }, published := [bytes] }
      else
        { ret := .error, seqId := none,
          client := { client with request_publisher := pub2 }, published := [bytes] }
    else
      { ret := .error, seqId := none, client := client, published := [] }

/-- Embedding of rmw_take_request (rmw_request.cpp): pop the next queued
bytes (report not-taken when the queue is empty), decode the header,
derive the response topic as service_name + "/response/" + uuid hex
string of the decoded identity, bind a new publisher to that topic
(newGid is the identity oracle of the transport for it), and store it in the
pending-request map under the decoded request id. A decode past the end
of the buffer is a BufferUnderrun failure, modelled from the spec (the
C++ leaves it undefined). -/
def rmw_take_request (info : CustomServiceInfo) (newGid : Option (List Nat)) :
    TakeResult × CustomServiceInfo :=
  match info.listener.take_next_data with
  | (none, l2) => ({ ret := .ok, taken := false, decoded := none }, { info with listener := l2 })
  | (some bs, l2) =>
    match decodeHeader bs with
    | none => ({ ret := .error, taken := false, decoded := none }, { info with listener := l2 })
    | some d =>
      let rid : RequestId := { writer_guid := d.guid, sequence_number := d.seq }
      let topic := info.service_name ++ "/response/" ++ uuidStr d.guid
      let pub := publisher_new topic newGid
      ({ ret := .ok, taken := true, decoded := some d },
        { info with listener := l2, requests := emplaceReq info.requests rid pub })

/-- Result of rmw_send_response: return code, the error message set via
RMW_SET_ERROR_MSG (none on success), the pending-request map after the
call, and the publish calls made. -/
structure SendResponseResult where
  ret : RmwRet
  err : Option String
  requests : ReqMap
  published : List (List Nat)

/-- Embedding of rmw_send_response (rmw_response.cpp): look up the
pending-request map at the given request header; when absent set the
error "cannot find request" and return without touching the map or the
transport. Otherwise fetch the stored publisher identity (when the
transport reports none, return with the map unchanged), encode identity
+ sequence number + serialized payload (serOk oracle), publish (pubOk
oracle), and erase the map entry unconditionally before returning. -/
def rmw_send_response (requests : ReqMap) (request_header : RequestId)
    (payload : List Nat) (serOk pubOk : Bool) : SendResponseResult :=
  match requests request_header with
  | none =>
    { ret := .error, err := some "cannot find request", requests := requests, published := [] }
  | some pub =>
    match pub.gid with
    | none =>
      { ret := .error, err := some "no guid found for publisher",
        requests := requests, published := [] }
    | some g =>
      let bytes := encodeHeaderPayload g request_header.sequence_number payload
      if serOk then
        let (status, _) := publisher_publish pub pubOk
        if status = 0 then
          { ret := .ok, err := none,
            requests := eraseReq requests request_header, published := [bytes] }
        else
          { ret := .error, err := some "cannot send response",
            requests := eraseReq requests request_header, published := [bytes] }
      else
        { ret := .error, err := some "cannot serialize data",
          requests := eraseReq requests request_header, published := [] }

/-- Embedding of rmw_take_response (rmw_response.cpp): pop the next
queued bytes from the private response listener and decode the
header and payload exactly as rmw_take_request does. -/
def rmw_take_response (client : CustomClientInfo) : TakeResult × CustomClientInfo :=
  match client.listener.take_next_data with
  | (none, l2) => ({ ret := .ok, taken := false, decoded := none }, { client with listener := l2 })
  | (some bs, l2) =>
    match decodeHeader bs with
    | none => ({ ret := .error, taken := false, decoded := none }, { client with listener := l2 })
    | some d =>
      ({ ret := .ok, taken := true, decoded := some d }, { client with listener := l2 })

/-- Embedding of _take (rmw_take.cpp), the body of rmw_take_with_info:
pop the next queued bytes from the listener of the subscription and decode
timestamp, publisher gid, publication sequence number and payload. -/
def _take (sub : CustomSubscriptionInfo) : TakeResult × CustomSubscriptionInfo :=
  match sub.listener.take_next_data with
  | (none, l2) => ({ ret := .ok, taken := false, decoded := none }, { listener := l2 })
  | (some bs, l2) =>
    match decodeHeader bs with
    | none => ({ ret := .error, taken := false, decoded := none }, { listener := l2 })
    | some d =>
      ({ ret := .ok, taken := true, decoded := some d }, { listener := l2 })

/-! General facts about the shared header decode. -/

theorem readBytes_of_le (w : Nat) (bs : List Nat) (h : w ≤ bs.length) :
    readBytes w bs = some (bs.take w, bs.drop w) := by
  unfold readBytes
  rw [if_pos h]

theorem decodeHeader_of_length (bs : List Nat) (h : 36 ≤ bs.length) :
    decodeHeader bs = some
      { timestamp := (leVal (bs.take 8) * 1000000000 + leVal ((bs.drop 8).take 4) * 1000) % 2 ^ 64
        guid := ((bs.drop 12).take 16).map fun b => b % 256
        seq := toInt64 (leVal ((bs.drop 28).take 8))
        payload := bs.drop 36 } := by
  have h8 := readBytes_of_le 8 bs (by omega)
  have h4 := readBytes_of_le 4 (bs.drop 8) (by simp [List.length_drop]; omega)
  have h16 := readBytes_of_le 16 (bs.drop 12) (by simp [List.length_drop]; omega)
  have h8b := readBytes_of_le 8 (bs.drop 28) (by simp [List.length_drop]; omega)
  have e12 : (bs.drop 8).drop 4 = bs.drop 12 := by
    simp [List.drop_drop]
  have e28 : (bs.drop 12).drop 16 = bs.drop 28 := by
    simp [List.drop_drop]
  have e36 : (bs.drop 28).drop 8 = bs.drop 36 := by
    simp [List.drop_drop]
  have hmapfn : (fun b => int8Byte (castInt8 b)) = (fun b : Nat => b % 256) :=
    funext castInt8_byte
  unfold decodeHeader
  simp only [h8, h4, e12, h16, e28, h8b, e36, hmapfn]

theorem decodeHeader_append (pre mid q rest : List Nat)
    (hpre : pre.length = 12) (hmid : mid.length = 16) (hq : q.length = 8) :
    decodeHeader (pre ++ mid ++ q ++ rest) = some
      { timestamp := (leVal (pre.take 8) * 1000000000 + leVal (pre.drop 8) * 1000) % 2 ^ 64
        guid := mid.map fun b => b % 256
        seq := toInt64 (leVal q)
        payload := rest } := by
  have hlen : 36 ≤ (pre ++ mid ++ q ++ rest).length := by
    simp [List.length_append, hpre, hmid, hq]
    omega
  rw [decodeHeader_of_length _ hlen]
  have t8 : (pre ++ mid ++ q ++ rest).take 8 = pre.take 8 := by
    rw [List.append_assoc, List.append_assoc, List.take_append_of_le_length (by omega)]
  have d8 : (pre ++ mid ++ q ++ rest).drop 8 = pre.drop 8 ++ (mid ++ (q ++ rest)) := by
    rw [List.append_assoc, List.append_assoc, List.drop_append_of_le_length (by omega)]
  have t4 : ((pre ++ mid ++ q ++ rest).drop 8).take 4 = pre.drop 8 := by
    rw [d8, List.take_append_of_le_length (by simp [List.length_drop, hpre])]
    exact List.take_of_length_le (by simp [List.length_drop, hpre])
  have d12 : (pre ++ mid ++ q ++ rest).drop 12 = mid ++ (q ++ rest) := by
    rw [List.append_assoc, List.append_assoc,
      List.drop_append_of_le_length (by omega)]
    rw [List.drop_of_length_le (by omega), List.nil_append]
  have t16 : ((pre ++ mid ++ q ++ rest).drop 12).take 16 = mid := by
    rw [d12, List.take_append_of_le_length (by omega)]
    exact List.take_of_length_le (by omega)
  have d28 : (pre ++ mid ++ q ++ rest).drop 28 = q ++ rest := by
    have hsplit : ((pre ++ mid ++ q ++ rest).drop 12).drop 16
        = (pre ++ mid ++ q ++ rest).drop 28 := by
      simp [List.drop_drop]
    rw [← hsplit, d12, List.drop_append_of_le_length (by omega)]
    rw [List.drop_of_length_le (by omega), List.nil_append]
  have t8q : ((pre ++ mid ++ q ++ rest).drop 28).take 8 = q := by
    rw [d28, List.take_append_of_le_length (by omega)]
    exact List.take_of_length_le (by omega)
  have d36 : (pre ++ mid ++ q ++ rest).drop 36 = rest := by
    have hsplit : ((pre ++ mid ++ q ++ rest).drop 28).drop 8
        = (pre ++ mid ++ q ++ rest).drop 36 := by
      simp [List.drop_drop]
    rw [← hsplit, d28, List.drop_append_of_le_length (by omega)]
    rw [List.drop_of_length_le (by omega), List.nil_append]
  rw [t8, t4, t16, t8q, d36]

/-! Claim theorems. -/

/-- C4: for every Listener with an empty queue, push(a) then push(b)
makes the next two take_next_data calls yield a then b (FIFO arrival
order); and on an empty queue take_next_data reports empty (none)
without removing anything. -/
theorem c4_listener_fifo (l : Listener) (a b : Msg) (h : l.queue = []) :
    (((l.on_publication a).on_publication b).take_next_data).fst = some a ∧
    ((((l.on_publication a).on_publication b).take_next_data).snd.take_next_data).fst
      = some b ∧
    l.take_next_data = (none, l) := by
  refine ⟨?_, ?_, ?_⟩ <;>
    simp [Listener.on_publication, Listener.take_next_data, h]

/-- Witness for C4 at a concrete listener and payloads. -/
theorem c4_listener_fifo_witness :
    (Listener.mk [] false).queue = [] ∧
    ((((Listener.mk [] false).on_publication [1]).on_publication [2]).take_next_data).fst
      = some [1] ∧
    (((((Listener.mk [] false).on_publication [1]).on_publication
      [2]).take_next_data).snd.take_next_data).fst = some [2] ∧
    (Listener.mk [] false).take_next_data = (none, Listener.mk [] false) := by
  have h := c4_listener_fifo (Listener.mk [] false) [1] [2] rfl
  exact ⟨rfl, h.1, h.2.1, h.2.2⟩

/-- C6: for every GuardCondition, trigger sets the flag; hasTriggered
returns the current flag and leaves the state unchanged; getHasTriggered
returns the current flag and clears it, so two consecutive
getHasTriggered calls after a single trigger yield true then false. -/
theorem c6_guard_condition (g : GuardCondition) :
    (g.trigger).has_triggered = true ∧
    g.hasTriggered = (g.has_triggered, g) ∧
    g.getHasTriggered = (g.has_triggered, { g with has_triggered := false }) ∧
    ((g.trigger).getHasTriggered).fst = true ∧
    (((g.trigger).getHasTriggered).snd.getHasTriggered).fst = false := by
  refine ⟨rfl, rfl, rfl, rfl, rfl⟩

/-- C1 (failing input): the wait predicate and the attach loop ignore
guard conditions, services and clients. check_wait_set_for_data returns
false for a wait set holding one triggered guard condition and service
and client listeners with queued data; libp2p_c__rmw_wait on a valid
wait set with a triggered guard condition and zero timeout therefore
returns TIMEOUT, not READY. -/
theorem c1_wait_ignores_guards_and_services :
    check_wait_set_for_data none (some [GuardCondition.mk true false])
      (some [Listener.mk [[0]] false]) (some [Listener.mk [[0]] false]) = false ∧
    libp2p_c__rmw_wait none (some [GuardCondition.mk true false]) none none
      none (some (some CustomWaitsetInfo.mk)) (some (RmwTime.mk 0 0)) none
      = (RmwRet.timeout, none) := by
  exact ⟨rfl, rfl⟩

/-- Attaching the condition pair of the wait set pair to a listener does not change
the data it holds, so the readiness check sees through the attach loop. -/
theorem check_attachMap (subs : Option (List (Option CustomSubscriptionInfo)))
    (gcs : Option (List GuardCondition)) (svcs clis : Option (List Listener)) :
    check_wait_set_for_data
      (subs.map fun l => l.map fun s => s.map fun info =>
        { info with listener := info.listener.attach_condition })
      gcs svcs clis = check_wait_set_for_data subs gcs svcs clis := by
  cases subs with
  | none => rfl
  | some l =>
    change (l.map _).any _ = l.any _
    rw [List.any_map]
    congr 1
    funext s
    cases s <;> rfl

/-- C5: the wait call returns ERROR when the wait-set handle is null;
with nothing ready and a timeout of exactly zero seconds and zero
nanoseconds it returns TIMEOUT without blocking (the outcome does not
depend on any wake-time state); with nothing ready and nothing becoming
ready within a positive timeout it returns TIMEOUT; when the readiness
check holds at entry it returns OK (READY); when nothing is ready at
entry but something becomes ready at the wake of a positive-timeout
block it returns OK; and with an absent timeout the indefinite block
re-checks the predicate until it holds and then returns OK. -/
theorem c5_wait_return_codes
    (subs wake : Option (List (Option CustomSubscriptionInfo)))
    (gcs : Option (List GuardCondition)) (svcs clis : Option (List Listener))
    (wsi : CustomWaitsetInfo) (t : RmwTime) (timeout : Option RmwTime) :
    (libp2p_c__rmw_wait subs gcs svcs clis none none timeout wake = (.error, subs)) ∧
    (check_wait_set_for_data subs gcs svcs clis = false →
      (libp2p_c__rmw_wait subs gcs svcs clis none (some (some wsi))
        (some (RmwTime.mk 0 0)) wake).fst = .timeout) ∧
    (check_wait_set_for_data subs gcs svcs clis = false →
      check_wait_set_for_data wake gcs svcs clis = false →
      (0 < t.sec ∨ 0 < t.nsec) →
      (libp2p_c__rmw_wait subs gcs svcs clis none (some (some wsi))
        (some t) wake).fst = .timeout) ∧
    (check_wait_set_for_data subs gcs svcs clis = true →
      (libp2p_c__rmw_wait subs gcs svcs clis none (some (some wsi))
        timeout wake).fst = .ok) ∧
    (check_wait_set_for_data subs gcs svcs clis = false →
      check_wait_set_for_data wake gcs svcs clis = true →
      (0 < t.sec ∨ 0 < t.nsec) →
      (libp2p_c__rmw_wait subs gcs svcs clis none (some (some wsi))
        (some t) wake).fst = .ok) ∧
    (check_wait_set_for_data subs gcs svcs clis = false →
      (libp2p_c__rmw_wait subs gcs svcs clis none (some (some wsi))
        none wake).fst = .ok) := by
  refine ⟨rfl, ?_, ?_, ?_, ?_, ?_⟩
  · intro hnr
    simp [libp2p_c__rmw_wait, eventsNonzero, check_attachMap, hnr]
  · intro hnr hwake ht
    have hts : (t.sec > 0 || t.nsec > 0) = true := by
      rcases ht with h | h <;> simp [h]
    simp [libp2p_c__rmw_wait, eventsNonzero, check_attachMap, hnr, hwake, hts]
  · intro hr
    simp [libp2p_c__rmw_wait, eventsNonzero, check_attachMap, hr]
  · intro hnr hwake ht
    have hts : (t.sec > 0 || t.nsec > 0) = true := by
      rcases ht with h | h <;> simp [h]
    simp [libp2p_c__rmw_wait, eventsNonzero, check_attachMap, hnr, hwake, hts]
  · intro hnr
    simp [libp2p_c__rmw_wait, eventsNonzero, check_attachMap, hnr]

/-- Witness for C5 at concrete wait sets: an empty subscription for the
error/timeout conjuncts and one holding data for the READY conjunct. -/
theorem c5_wait_return_codes_witness :
    (check_wait_set_for_data (some [some (CustomSubscriptionInfo.mk
      (Listener.mk [] false))]) none none none = false) ∧
    (check_wait_set_for_data (some [some (CustomSubscriptionInfo.mk
      (Listener.mk [[7]] false))]) none none none = true) ∧
    (libp2p_c__rmw_wait (some [some (CustomSubscriptionInfo.mk (Listener.mk [] false))])
      none none none none none none none
      = (.error, some [some (CustomSubscriptionInfo.mk (Listener.mk [] false))])) ∧
    ((libp2p_c__rmw_wait (some [some (CustomSubscriptionInfo.mk (Listener.mk [] false))])
      none none none none (some (some CustomWaitsetInfo.mk))
      (some (RmwTime.mk 0 0)) none).fst = .timeout) ∧
    ((libp2p_c__rmw_wait (some [some (CustomSubscriptionInfo.mk (Listener.mk [] false))])
      none none none none (some (some CustomWaitsetInfo.mk))
      (some (RmwTime.mk 1 0)) none).fst = .timeout) ∧
    ((libp2p_c__rmw_wait (some [some (CustomSubscriptionInfo.mk (Listener.mk [[7]] false))])
      none none none none (some (some CustomWaitsetInfo.mk)) none none).fst = .ok) ∧
    ((libp2p_c__rmw_wait (some [some (CustomSubscriptionInfo.mk (Listener.mk [] false))])
      none none none none (some (some CustomWaitsetInfo.mk)) (some (RmwTime.mk 1 0))
      (some [some (CustomSubscriptionInfo.mk (Listener.mk [[7]] false))])).fst = .ok) ∧
    ((libp2p_c__rmw_wait (some [some (CustomSubscriptionInfo.mk (Listener.mk [] false))])
      none none none none (some (some CustomWaitsetInfo.mk)) none
      (some [some (CustomSubscriptionInfo.mk (Listener.mk [[7]] false))])).fst = .ok) := by
  have h1 := c5_wait_return_codes
    (some [some (CustomSubscriptionInfo.mk (Listener.mk [] false))]) none
    none none none CustomWaitsetInfo.mk (RmwTime.mk 1 0) none
  have h2 := c5_wait_return_codes
    (some [some (CustomSubscriptionInfo.mk (Listener.mk [[7]] false))]) none
    none none none CustomWaitsetInfo.mk (RmwTime.mk 1 0) none
  have h3 := c5_wait_return_codes
    (some [some (CustomSubscriptionInfo.mk (Listener.mk [] false))])
    (some [some (CustomSubscriptionInfo.mk (Listener.mk [[7]] false))])
    none none none CustomWaitsetInfo.mk (RmwTime.mk 1 0) none
  exact ⟨by decide, by decide, h1.1, h1.2.1 (by decide),
    h1.2.2.1 (by decide) (by decide) (Or.inl (by decide)), h2.2.2.2.1 (by decide),
    h3.2.2.2.2.1 (by decide) (by decide) (Or.inl (by decide)),
    h3.2.2.2.2.2 (by decide)⟩

/-- C3: for every pending-request map and correlation id, send_response
with no entry at that id fails with the not-found error and publishes
nothing, leaving the map unchanged; and after a successful send_response
the entry is erased, so a second send_response for the same id fails
with the not-found error and publishes nothing. -/
theorem c3_send_response_single_use (m : ReqMap) (k : RequestId)
    (pub : PublisherInfo) (g p p2 : List Nat) (serOk pubOk serOk2 pubOk2 : Bool) :
    (m k = none →
      rmw_send_response m k p serOk pubOk
        = ⟨.error, some "cannot find request", m, []⟩) ∧
    (m k = some pub → pub.gid = some g →
      (rmw_send_response m k p true true).ret = .ok ∧
      (rmw_send_response m k p true true).requests k = none ∧
      rmw_send_response (rmw_send_response m k p true true).requests k p2 serOk2 pubOk2
        = ⟨.error, some "cannot find request",
            (rmw_send_response m k p true true).requests, []⟩) := by
  constructor
  · intro hmiss
    simp [rmw_send_response, hmiss]
  · intro hhit hgid
    have herase : (rmw_send_response m k p true true).requests k = none := by
      simp [rmw_send_response, hhit, hgid, publisher_publish, eraseReq]
    refine ⟨?_, herase, ?_⟩
    · simp [rmw_send_response, hhit, hgid, publisher_publish]
    · generalize hM : (rmw_send_response m k p true true).requests = m2 at herase ⊢
      simp [rmw_send_response, herase]

/-- Witness for C3 at a concrete map holding one pending request. -/
theorem c3_send_response_single_use_witness :
    (((fun _ => none) : ReqMap) (RequestId.mk [0] 1) = none ∧
      rmw_send_response (fun _ => none) (RequestId.mk [0] 1) [9] true true
        = ⟨.error, some "cannot find request", fun _ => none, []⟩) ∧
    ((emplaceReq (fun _ => none) (RequestId.mk [0] 1)
        (PublisherInfo.mk "t" (some [2]) 0)) (RequestId.mk [0] 1)
        = some (PublisherInfo.mk "t" (some [2]) 0) ∧
      (PublisherInfo.mk "t" (some [2]) 0).gid = some [2] ∧
      (rmw_send_response (emplaceReq (fun _ => none) (RequestId.mk [0] 1)
        (PublisherInfo.mk "t" (some [2]) 0)) (RequestId.mk [0] 1) [9] true true).ret = .ok ∧
      rmw_send_response
        (rmw_send_response (emplaceReq (fun _ => none) (RequestId.mk [0] 1)
          (PublisherInfo.mk "t" (some [2]) 0)) (RequestId.mk [0] 1) [9] true true).requests
        (RequestId.mk [0] 1) [9] true true
        = ⟨.error, some "cannot find request",
            (rmw_send_response (emplaceReq (fun _ => none) (RequestId.mk [0] 1)
              (PublisherInfo.mk "t" (some [2]) 0)) (RequestId.mk [0] 1) [9] true
              true).requests, []⟩) := by
  have h1 := c3_send_response_single_use (fun _ => none) (RequestId.mk [0] 1)
    (PublisherInfo.mk "t" (some [2]) 0) [2] [9] [9] true true true true
  have h2 := c3_send_response_single_use
    (emplaceReq (fun _ => none) (RequestId.mk [0] 1) (PublisherInfo.mk "t" (some [2]) 0))
    (RequestId.mk [0] 1) (PublisherInfo.mk "t" (some [2]) 0) [2] [9] [9] true true true true
  have hin : (emplaceReq (fun _ => none) (RequestId.mk [0] 1)
      (PublisherInfo.mk "t" (some [2]) 0)) (RequestId.mk [0] 1)
      = some (PublisherInfo.mk "t" (some [2]) 0) := by
    simp [emplaceReq]
  have h3 := h2.2 hin rfl
  exact ⟨⟨rfl, h1.1 rfl⟩, ⟨hin, rfl, h3.1, h3.2.2⟩⟩

/-- C9: once send_response finds a pending entry, it erases that entry
before returning even when serialization or the transport publish fails;
only the missing-publisher-gid early return leaves the map unchanged, so
a failed send_response is not atomic and a retry with the same
correlation id fails with the not-found error. -/
theorem c9_send_response_erases_on_failure (m : ReqMap) (k : RequestId)
    (pub : PublisherInfo) (g p p2 : List Nat) (serOk pubOk serOk2 pubOk2 : Bool)
    (hhit : m k = some pub) :
    (pub.gid = none →
      rmw_send_response m k p serOk pubOk
        = ⟨.error, some "no guid found for publisher", m, []⟩) ∧
    (pub.gid = some g →
      (rmw_send_response m k p serOk pubOk).requests k = none ∧
      (serOk = false ∨ pubOk = false →
        (rmw_send_response m k p serOk pubOk).ret = .error) ∧
      (rmw_send_response (rmw_send_response m k p serOk pubOk).requests
        k p2 serOk2 pubOk2).err = some "cannot find request") := by
  constructor
  · intro hnogid
    simp [rmw_send_response, hhit, hnogid]
  · intro hgid
    have herase : (rmw_send_response m k p serOk pubOk).requests k = none := by
      cases serOk <;> cases pubOk <;>
        simp [rmw_send_response, hhit, hgid, publisher_publish, eraseReq]
    refine ⟨herase, ?_, ?_⟩
    · intro hfail
      rcases hfail with h | h <;> subst h
      · cases pubOk <;> simp [rmw_send_response, hhit, hgid, publisher_publish]
      · cases serOk <;> simp [rmw_send_response, hhit, hgid, publisher_publish]
    · generalize hM : (rmw_send_response m k p serOk pubOk).requests = m2 at herase ⊢
      simp [rmw_send_response, herase]

/-- Witness for C9: a pending entry whose serialization fails is still
erased and a retry reports the not-found error. -/
theorem c9_send_response_erases_on_failure_witness :
    (((fun q => if q = RequestId.mk [3] 4 then some (PublisherInfo.mk "t" (some [2]) 0)
        else none) : ReqMap) (RequestId.mk [3] 4)
      = some (PublisherInfo.mk "t" (some [2]) 0)) ∧
    ((rmw_send_response (fun q => if q = RequestId.mk [3] 4 then
        some (PublisherInfo.mk "t" (some [2]) 0) else none)
        (RequestId.mk [3] 4) [9] false true).requests (RequestId.mk [3] 4) = none) ∧
    ((rmw_send_response (fun q => if q = RequestId.mk [3] 4 then
        some (PublisherInfo.mk "t" (some [2]) 0) else none)
        (RequestId.mk [3] 4) [9] false true).ret = .error) ∧
    ((rmw_send_response (rmw_send_response (fun q => if q = RequestId.mk [3] 4 then
        some (PublisherInfo.mk "t" (some [2]) 0) else none)
        (RequestId.mk [3] 4) [9] false true).requests
        (RequestId.mk [3] 4) [9] true true).err = some "cannot find request") := by
  have h := c9_send_response_erases_on_failure
    (fun q => if q = RequestId.mk [3] 4 then some (PublisherInfo.mk "t" (some [2]) 0)
      else none)
    (RequestId.mk [3] 4) (PublisherInfo.mk "t" (some [2]) 0) [2] [9] [9]
    false true true true (by simp)
  have h2 := h.2 rfl
  exact ⟨by simp, h2.1, h2.2.1 (Or.inl rfl), h2.2.2⟩

/-- C7: for every request taken by a service, take_request derives the
response topic as the service topic name concatenated with "/response/"
and the client identity rendered as a UUID hex string, binds a publisher
to that topic, and stores it in the pending-request map keyed by the
decoded (identity, sequence) pair — the same request id it returns to
the caller. -/
theorem c7_take_request_stores_response_publisher (info : CustomServiceInfo)
    (bs : Msg) (rest : List Msg) (newGid : Option (List Nat)) (d : DecodedMsg)
    (hq : info.listener.queue = bs :: rest)
    (hd : decodeHeader bs = some d)
    (hfresh : info.requests (RequestId.mk d.guid d.seq) = none) :
    (rmw_take_request info newGid).fst = ⟨.ok, true, some d⟩ ∧
    (rmw_take_request info newGid).snd.requests (RequestId.mk d.guid d.seq)
      = some (publisher_new
          (info.service_name ++ "/response/" ++ uuidStr d.guid) newGid) := by
  constructor
  · simp [rmw_take_request, Listener.take_next_data, hq, hd]
  · simp [rmw_take_request, Listener.take_next_data, hq, hd, emplaceReq, hfresh]

/-- Witness for C7 on a concrete 36-byte delivered request. -/
theorem c7_take_request_stores_response_publisher_witness :
    ((CustomServiceInfo.mk "svc"
        (Listener.mk [List.replicate 12 0 ++ List.range 16 ++ List.replicate 8 0] false)
        (fun _ => none)).listener.queue
      = [List.replicate 12 0 ++ List.range 16 ++ List.replicate 8 0]) ∧
    (decodeHeader (List.replicate 12 0 ++ List.range 16 ++ List.replicate 8 0)
      = some (DecodedMsg.mk 0 (List.range 16) 0 [])) ∧
    ((rmw_take_request (CustomServiceInfo.mk "svc"
        (Listener.mk [List.replicate 12 0 ++ List.range 16 ++ List.replicate 8 0] false)
        (fun _ => none)) (some [1])).fst
      = ⟨.ok, true, some (DecodedMsg.mk 0 (List.range 16) 0 [])⟩) ∧
    ((rmw_take_request (CustomServiceInfo.mk "svc"
        (Listener.mk [List.replicate 12 0 ++ List.range 16 ++ List.replicate 8 0] false)
        (fun _ => none)) (some [1])).snd.requests
        (RequestId.mk (List.range 16) 0)
      = some (publisher_new
          ("svc" ++ "/response/" ++ uuidStr (List.range 16)) (some [1]))) := by
  have h := c7_take_request_stores_response_publisher
    (CustomServiceInfo.mk "svc"
      (Listener.mk [List.replicate 12 0 ++ List.range 16 ++ List.replicate 8 0] false)
      (fun _ => none))
    (List.replicate 12 0 ++ List.range 16 ++ List.replicate 8 0) [] (some [1])
    (DecodedMsg.mk 0 (List.range 16) 0 []) rfl (by decide) rfl
  exact ⟨rfl, by decide, h.1, h.2⟩

/-- C8: consecutive successful send_request calls on one client return
strictly increasing sequence numbers, under the collaborator contract
that the per-publisher sequence counter advances with each
successful publication. -/
theorem c8_send_request_sequence_monotonic (c : CustomClientInfo)
    (p1 p2 : List Nat) (serOk1 pubOk1 serOk2 pubOk2 : Bool)
    (h1 : (rmw_send_request c p1 serOk1 pubOk1).ret = .ok)
    (h2 : (rmw_send_request (rmw_send_request c p1 serOk1 pubOk1).client
      p2 serOk2 pubOk2).ret = .ok) :
    ∃ a b : Int, (rmw_send_request c p1 serOk1 pubOk1).seqId = some a ∧
      (rmw_send_request (rmw_send_request c p1 serOk1 pubOk1).client
        p2 serOk2 pubOk2).seqId = some b ∧
      a < b := by
  cases hg : c.request_publisher.gid with
  | none => simp [rmw_send_request, hg] at h1
  | some g =>
    cases serOk1 with
    | false => simp [rmw_send_request, hg] at h1
    | true =>
      cases pubOk1 with
      | false => simp [rmw_send_request, hg, publisher_publish] at h1
      | true =>
        have hc1 : (rmw_send_request c p1 true true).client.request_publisher
            = { c.request_publisher with
                seqCounter := c.request_publisher.seqCounter + 1 } := by
          simp [rmw_send_request, hg, publisher_publish]
        have hs1 : (rmw_send_request c p1 true true).seqId
            = some c.request_publisher.seqCounter := by
          simp [rmw_send_request, hg, publisher_publish, get_sequence_number]
        generalize hC : (rmw_send_request c p1 true true).client = c1 at hc1 h2 ⊢
        have hg1 : c1.request_publisher.gid = some g := by
          rw [hc1]
          exact hg
        have hcnt : c1.request_publisher.seqCounter
            = c.request_publisher.seqCounter + 1 := by
          rw [hc1]
        cases serOk2 with
        | false => simp [rmw_send_request, hg1] at h2
        | true =>
          cases pubOk2 with
          | false => simp [rmw_send_request, hg1, publisher_publish] at h2
          | true =>
            have hs2 : (rmw_send_request c1 p2 true true).seqId
                = some (c.request_publisher.seqCounter + 1) := by
              simp [rmw_send_request, hg1, publisher_publish, get_sequence_number, hcnt]
            exact ⟨c.request_publisher.seqCounter,
              c.request_publisher.seqCounter + 1, hs1, hs2, by omega⟩

/-- Witness for C8 on a concrete client whose counter starts at 5. -/
theorem c8_send_request_sequence_monotonic_witness :
    ((rmw_send_request (CustomClientInfo.mk (Listener.mk [] false)
        (PublisherInfo.mk "req" (some (List.range 16)) 5)) [1] true true).ret = .ok) ∧
    ((rmw_send_request (rmw_send_request (CustomClientInfo.mk (Listener.mk [] false)
        (PublisherInfo.mk "req" (some (List.range 16)) 5)) [1] true true).client
        [2] true true).ret = .ok) ∧
    (∃ a b : Int,
      (rmw_send_request (CustomClientInfo.mk (Listener.mk [] false)
        (PublisherInfo.mk "req" (some (List.range 16)) 5)) [1] true true).seqId = some a ∧
      (rmw_send_request (rmw_send_request (CustomClientInfo.mk (Listener.mk [] false)
        (PublisherInfo.mk "req" (some (List.range 16)) 5)) [1] true true).client
        [2] true true).seqId = some b ∧
      a < b) := by
  refine ⟨by decide, by decide, ?_⟩
  exact c8_send_request_sequence_monotonic
    (CustomClientInfo.mk (Listener.mk [] false)
      (PublisherInfo.mk "req" (some (List.range 16)) 5))
    [1] [2] true true true true (by decide) (by decide)

/-- C10: every take-side decode (plain take, take_request,
take_response) reads the first 12 delivered bytes as a timestamp — an
8-byte unsigned seconds field then a 4-byte unsigned microseconds field,
reported as seconds * 1000000000 + microseconds * 1000 in unsigned
64-bit arithmetic — before the 16 identity bytes and the 8-byte sequence
number, so the identity starts at byte offset 12 of the delivered
payload, not at offset 0. -/
theorem c10_take_reads_timestamp_first (bs : Msg) (rest : List Msg)
    (h : 36 ≤ bs.length)
    (sub : CustomSubscriptionInfo) (hsub : sub.listener.queue = bs :: rest)
    (svc : CustomServiceInfo) (hsvc : svc.listener.queue = bs :: rest)
    (newGid : Option (List Nat))
    (cli : CustomClientInfo) (hcli : cli.listener.queue = bs :: rest) :
    decodeHeader bs = some
      { timestamp := (leVal (bs.take 8) * 1000000000
          + leVal ((bs.drop 8).take 4) * 1000) % 2 ^ 64
        guid := (bs.drop 12).take 16 |>.map fun b => b % 256
        seq := toInt64 (leVal ((bs.drop 28).take 8))
        payload := bs.drop 36 } ∧
    (_take sub).fst = ⟨.ok, true, decodeHeader bs⟩ ∧
    (rmw_take_request svc newGid).fst = ⟨.ok, true, decodeHeader bs⟩ ∧
    (rmw_take_response cli).fst = ⟨.ok, true, decodeHeader bs⟩ := by
  have hdec := decodeHeader_of_length bs h
  refine ⟨hdec, ?_, ?_, ?_⟩
  · simp [_take, Listener.take_next_data, hsub, hdec]
  · simp [rmw_take_request, Listener.take_next_data, hsvc, hdec]
  · simp [rmw_take_response, Listener.take_next_data, hcli, hdec]

/-- Witness for C10 on a concrete delivered message: seconds 2,
microseconds 3, identity 1..16 starting at offset 12, sequence 5. -/
theorem c10_take_reads_timestamp_first_witness :
    (36 ≤ ([2, 0, 0, 0, 0, 0, 0, 0] ++ [3, 0, 0, 0] ++ (List.range 16).map (· + 1)
      ++ [5, 0, 0, 0, 0, 0, 0, 0] : List Nat).length) ∧
    decodeHeader ([2, 0, 0, 0, 0, 0, 0, 0] ++ [3, 0, 0, 0] ++ (List.range 16).map (· + 1)
      ++ [5, 0, 0, 0, 0, 0, 0, 0])
      = some (DecodedMsg.mk 2000003000 ((List.range 16).map (· + 1)) 5 []) ∧
    (_take (CustomSubscriptionInfo.mk (Listener.mk
      [[2, 0, 0, 0, 0, 0, 0, 0] ++ [3, 0, 0, 0] ++ (List.range 16).map (· + 1)
        ++ [5, 0, 0, 0, 0, 0, 0, 0]] false))).fst
      = ⟨.ok, true, some (DecodedMsg.mk 2000003000 ((List.range 16).map (· + 1)) 5 [])⟩ := by
  have h := c10_take_reads_timestamp_first
    ([2, 0, 0, 0, 0, 0, 0, 0] ++ [3, 0, 0, 0] ++ (List.range 16).map (· + 1)
      ++ [5, 0, 0, 0, 0, 0, 0, 0]) []
    (by decide)
    (CustomSubscriptionInfo.mk (Listener.mk
      [[2, 0, 0, 0, 0, 0, 0, 0] ++ [3, 0, 0, 0] ++ (List.range 16).map (· + 1)
        ++ [5, 0, 0, 0, 0, 0, 0, 0]] false)) rfl
    (CustomServiceInfo.mk "svc" (Listener.mk
      [[2, 0, 0, 0, 0, 0, 0, 0] ++ [3, 0, 0, 0] ++ (List.range 16).map (· + 1)
        ++ [5, 0, 0, 0, 0, 0, 0, 0]] false) (fun _ => none)) rfl none
    (CustomClientInfo.mk (Listener.mk
      [[2, 0, 0, 0, 0, 0, 0, 0] ++ [3, 0, 0, 0] ++ (List.range 16).map (· + 1)
        ++ [5, 0, 0, 0, 0, 0, 0, 0]] false) (PublisherInfo.mk "req" none 0)) rfl
  have hdec : decodeHeader ([2, 0, 0, 0, 0, 0, 0, 0] ++ [3, 0, 0, 0]
      ++ (List.range 16).map (· + 1) ++ [5, 0, 0, 0, 0, 0, 0, 0])
      = some (DecodedMsg.mk 2000003000 ((List.range 16).map (· + 1)) 5 []) := by decide
  exact ⟨by decide, hdec, hdec ▸ h.2.1⟩

/-- Identity bytes survive the int8 write cast unchanged when they are
in byte range. -/
theorem guid_write_bytes (g : List Nat) (hgb : ∀ b ∈ g, b < 256) :
    (g.map fun b => int8Byte (castInt8 b)) = g := by
  have hid : ∀ b ∈ g, int8Byte (castInt8 b) = b := by
    intro b hb
    rw [castInt8_byte]
    exact Nat.mod_eq_of_lt (hgb b hb)
  rw [List.map_congr_left hid]
  simp

/-- C2 (counterexample): the round trip fails on the bytes
send_request publishes, taken literally. A client with identity
1..16 and sequence counter 7 sends the 12-byte payload 9,...,9; the
take_request of the service applied to exactly the published bytes does not
report the client identity (the first 12 published bytes are consumed
as a timestamp, so the identity is read from offset 12 onward). -/
theorem c2_request_roundtrip_counterexample :
    (rmw_send_request (CustomClientInfo.mk (Listener.mk [] false)
        (PublisherInfo.mk "req" (some ((List.range 16).map (· + 1))) 7))
        (List.replicate 12 9) true true).published
      = [encodeHeaderPayload ((List.range 16).map (· + 1)) 7 (List.replicate 12 9)] ∧
    ((rmw_take_request (CustomServiceInfo.mk "svc"
        (Listener.mk [encodeHeaderPayload ((List.range 16).map (· + 1)) 7
          (List.replicate 12 9)] false) (fun _ => none)) none).fst.decoded).map
        DecodedMsg.guid ≠ some ((List.range 16).map (· + 1)) := by
  exact ⟨by decide, by decide⟩

/-- C2 (amended): with the 12-byte timestamp prefix in front
of the published bytes, the round trip holds: send_request on a client
whose publisher identity is g (16 in-range bytes) and whose counter is s
publishes identity + sequence + payload and returns s, and take_request
on the prefixed delivery decodes payload byte-equal to the sent payload
with correlation identity g and sequence s. -/
theorem c2_request_roundtrip_amended (ts12 g p : List Nat) (s : Int)
    (lst : Listener) (topic : String) (svc : CustomServiceInfo) (rest : List Msg)
    (hts : ts12.length = 12) (hg : g.length = 16) (hgb : ∀ b ∈ g, b < 256)
    (hs1 : -(2 ^ 63) ≤ s) (hs2 : s < 2 ^ 63)
    (hsvc : svc.listener.queue = (ts12 ++ encodeHeaderPayload g s p) :: rest) :
    (rmw_send_request (CustomClientInfo.mk lst (PublisherInfo.mk topic (some g) s))
        p true true).seqId = some s ∧
    (rmw_send_request (CustomClientInfo.mk lst (PublisherInfo.mk topic (some g) s))
        p true true).published = [encodeHeaderPayload g s p] ∧
    (rmw_take_request svc none).fst
      = ⟨.ok, true, some (DecodedMsg.mk
          ((leVal (ts12.take 8) * 1000000000 + leVal (ts12.drop 8) * 1000) % 2 ^ 64)
          g s p)⟩ := by
  have henc : encodeHeaderPayload g s p = g ++ int64LE s ++ p := by
    unfold encodeHeaderPayload
    rw [guid_write_bytes g hgb]
  have hdec : decodeHeader (ts12 ++ encodeHeaderPayload g s p)
      = some (DecodedMsg.mk
          ((leVal (ts12.take 8) * 1000000000 + leVal (ts12.drop 8) * 1000) % 2 ^ 64)
          g s p) := by
    rw [henc]
    have hshape : ts12 ++ (g ++ int64LE s ++ p) = ts12 ++ g ++ int64LE s ++ p := by
      simp [List.append_assoc]
    rw [hshape, decodeHeader_append ts12 g (int64LE s) p hts hg (natLE_length 8 _)]
    have hmap : (g.map fun b => b % 256) = g := by
      have hid : ∀ b ∈ g, b % 256 = b := fun b hb => Nat.mod_eq_of_lt (hgb b hb)
      rw [List.map_congr_left hid]
      simp
    rw [hmap, leVal_int64LE s hs1 hs2]
  refine ⟨?_, ?_, ?_⟩
  · simp [rmw_send_request, get_sequence_number, publisher_publish]
  · simp [rmw_send_request, get_sequence_number, publisher_publish]
  · simp [rmw_take_request, Listener.take_next_data, hsvc, hdec]

/-- Witness for the amended C2 at a concrete timestamp prefix, identity,
sequence and payload. -/
theorem c2_request_roundtrip_amended_witness :
    (([1, 0, 0, 0, 0, 0, 0, 0, 2, 0, 0, 0] : List Nat).length = 12) ∧
    (((List.range 16).map (· + 1)).length = 16) ∧
    ((rmw_send_request (CustomClientInfo.mk (Listener.mk [] false)
        (PublisherInfo.mk "req" (some ((List.range 16).map (· + 1))) 7))
        [9, 9] true true).seqId = some 7) ∧
    ((rmw_take_request (CustomServiceInfo.mk "svc"
        (Listener.mk [[1, 0, 0, 0, 0, 0, 0, 0, 2, 0, 0, 0]
          ++ encodeHeaderPayload ((List.range 16).map (· + 1)) 7 [9, 9]] false)
        (fun _ => none)) none).fst
      = ⟨.ok, true, some (DecodedMsg.mk 1000002000
          ((List.range 16).map (· + 1)) 7 [9, 9])⟩) := by
  have h := c2_request_roundtrip_amended
    [1, 0, 0, 0, 0, 0, 0, 0, 2, 0, 0, 0] ((List.range 16).map (· + 1)) [9, 9] 7
    (Listener.mk [] false) "req"
    (CustomServiceInfo.mk "svc"
      (Listener.mk [[1, 0, 0, 0, 0, 0, 0, 0, 2, 0, 0, 0]
        ++ encodeHeaderPayload ((List.range 16).map (· + 1)) 7 [9, 9]] false)
      (fun _ => none)) []
    (by decide) (by decide) (by decide) (by decide) (by decide) rfl
  refine ⟨by decide, by decide, h.1, ?_⟩
  have h3 := h.2.2
  have hts : (leVal (([1, 0, 0, 0, 0, 0, 0, 0, 2, 0, 0, 0] : List Nat).take 8)
      * 1000000000
      + leVal (([1, 0, 0, 0, 0, 0, 0, 0, 2, 0, 0, 0] : List Nat).drop 8) * 1000)
      % 2 ^ 64 = 1000002000 := by decide
  rw [hts] at h3
  exact h3

end RmwLibp2p
